import Mathlib

/-!
Verification of the Stat Derivation Engine of the AlexStatusApp repository.

The engine lives in src/client/src/utils/statCalculator.js (second, generic
half of the file), with the snapshot-capture operation in
src/client/src/tabs/Valtherion.js (handleTakeSnapshot) and the bond
synchronisation wiring in src/client/src/context/CharacterContext.js.

Modelling conventions:
- JavaScript numbers are modelled as exact rationals.
- A missing object key read through `?.` and collapsed with `|| d` is
  modelled as the stored value 0 together with an explicit
  `if x = 0 then d else x`, which reproduces the JavaScript falsy
  collapse of both `undefined` and `0`.
- `Math.floor` is `Int.floor`; `Math.round` (half toward positive
  infinity) is `jsRound q = ⌊q + 1/2⌋`.
- Trait effects are a closed sum type dispatched by pattern matching,
  mirroring the string-tag dispatch of the source.
- Level snapshot objects are modelled as association lists from level to
  snapshot, with first-match lookup (JavaScript object keys are unique).
-/

/-- Rounding as performed by JavaScript `Math.round`: half values round
toward positive infinity. -/
def jsRound (q : ℚ) : ℤ := ⌊q + 1/2⌋

/-- The eight stats of ALL_STATS in statCalculator.js. -/
inductive Stat
  | strength
  | agility
  | constitution
  | vitality
  | intellect
  | willpower
  | mana
  | wisdom
deriving DecidableEq

/-- One entry of a title bonuses array: `{stat, additive, value, multiplier}`.
The `value` field is the legacy additive field; getTitleAdditiveBonuses reads
`Number(bonus.additive) || Number(bonus.value) || 0`. -/
structure TitleBonus where
  stat : Stat
  additive : ℚ
  value : ℚ
  multiplier : ℚ

/-- A title: `{name, enabled, bonuses}` (names are presentational and omitted).
The source skips a title only when `enabled === false`. -/
structure Title where
  enabled : Bool
  bonuses : List TitleBonus

/-- A stat boost entry: `{description, stat, additive, multiplier, enabled}`. -/
structure StatBoost where
  stat : Stat
  additive : ℚ
  multiplier : ℚ
  enabled : Bool

/-- Trait effects, dispatched in the source by the string tags
stat_multiplier, redirect_free_points and stat_derivation. -/
inductive TraitEffect
  | statMultiplier (stat : Stat) (multiplier : ℚ)
  | redirectFreePoints (toStat : Stat)
  | statDerivation (sourceStat targetStat : Stat) (percent : ℚ)

/-- A trait: a bundle of effects (name omitted).  The source stores traits
as `traits.items`; a missing list degrades to the empty list. -/
structure Trait where
  effects : List TraitEffect

/-- One growth phase of classHistory:
`{name, startLevel, endLevel|null, statsPerLevel}`. -/
structure ClassPhase where
  startLevel : ℤ
  endLevel : Option ℤ
  statsPerLevel : Stat → ℚ

/-- A derivation rule `{sourceStat, targetStat, percent}`. -/
structure StatDerivation where
  sourceStat : Stat
  targetStat : Stat
  percent : ℚ

/-- A level snapshot in the new format written by handleTakeSnapshot:
baked stats plus the ledger of bonuses already included in them.
Ledger maps are total; the value 0 plays the role of a missing key. -/
structure Snapshot where
  stats : Stat → ℚ
  rawTitleBonuses : Stat → ℚ
  includedTraitMultipliers : Stat → ℚ
  includedTitleBonuses : Stat → ℚ
  includedTitleMultipliers : Stat → ℚ
  includedStatBoostBonuses : Stat → ℚ
  includedStatBoostMultipliers : Stat → ℚ
  includedDerivationBonuses : Stat → ℚ

/-- A character record, holding exactly the fields the engine reads. -/
structure Character where
  level : ℤ
  levelSnapshots : List (ℤ × Snapshot)
  freePoints : Stat → ℚ
  traits : List Trait
  titles : List Title
  statBoosts : List StatBoost
  classHistory : List ClassPhase
  statDerivations : List StatDerivation
  hpCurrent : Option ℚ
  mpCurrent : Option ℚ

/-- Contribution of one bonus entry to the additive total of a stat:
`bonuses[bonus.stat] += Number(bonus.additive) || Number(bonus.value) || 0`. -/
def bonusAdditiveContribution (st : Stat) (b : TitleBonus) : ℚ :=
  if b.stat = st then (if b.additive ≠ 0 then b.additive else b.value) else 0

/-- Contribution of one bonus entry to the multiplier-rate total of a stat. -/
def bonusMultiplierContribution (st : Stat) (b : TitleBonus) : ℚ :=
  if b.stat = st then b.multiplier else 0

/-- Source getTitleAdditiveBonuses: sum additive bonuses over titles,
skipping titles with `enabled === false`. -/
def getTitleAdditiveBonuses (titles : List Title) (st : Stat) : ℚ :=
  (titles.map fun t =>
    if t.enabled = false then 0
    else (t.bonuses.map (bonusAdditiveContribution st)).sum).sum

/-- Source getTitleMultiplierBonuses: sum multiplier rates over enabled
titles; the final multiplicative factor is `1 + Σ rates`. -/
def getTitleMultiplierBonuses (titles : List Title) (st : Stat) : ℚ :=
  (titles.map fun t =>
    if t.enabled = false then 0
    else (t.bonuses.map (bonusMultiplierContribution st)).sum).sum

/-- Source getStatBoostAdditiveBonuses. -/
def getStatBoostAdditiveBonuses (boosts : List StatBoost) (st : Stat) : ℚ :=
  (boosts.map fun b =>
    if b.enabled = false then 0
    else if b.stat = st then b.additive else 0).sum

/-- Source getStatBoostMultiplierBonuses. -/
def getStatBoostMultiplierBonuses (boosts : List StatBoost) (st : Stat) : ℚ :=
  (boosts.map fun b =>
    if b.enabled = false then 0
    else if b.stat = st then b.multiplier else 0).sum

/-- Factor contributed by one effect to the trait multiplier of a stat:
`multiplier *= (effect.multiplier || 1)` on matching stat_multiplier effects. -/
def effectMultFactor (st : Stat) : TraitEffect → ℚ
  | TraitEffect.statMultiplier s m => if s = st then (if m = 0 then 1 else m) else 1
  | _ => 1

/-- Source getTraitMultiplier: product of all matching stat_multiplier
effects across all traits, default 1. -/
def getTraitMultiplier (traits : List Trait) (st : Stat) : ℚ :=
  (traits.map fun t => (t.effects.map (effectMultFactor st)).prod).prod

/-- Derivation rule carried by one effect, if it is a stat_derivation. -/
def effectDerivation : TraitEffect → Option StatDerivation
  | TraitEffect.statDerivation src tgt pct => some ⟨src, tgt, pct⟩
  | _ => none

/-- Source getStatDerivations: collect all stat_derivation effects across
all traits, in order (`percent || 0` is the identity on rationals with the
0-for-missing convention). -/
def getStatDerivations (traits : List Trait) : List StatDerivation :=
  traits.flatMap fun t => t.effects.filterMap effectDerivation

/-- Redirect target carried by one effect, if it is a redirect_free_points. -/
def effectRedirect : TraitEffect → Option Stat
  | TraitEffect.redirectFreePoints s => some s
  | _ => none

/-- First redirect_free_points target across all traits, scanning traits in
order and, within a trait, effects in order (source getRedirectedFreePoints
loop with `effects.find`). -/
def findRedirectTarget (traits : List Trait) : Option Stat :=
  traits.findSome? fun t => t.effects.findSome? effectRedirect

/-- Source getRedirectedFreePoints: the single-redirect policy; the target
receives 3 free points per level-up from fromLevel to level. -/
def getRedirectedFreePoints (traits : List Trait) (level fromLevel : ℤ) :
    Option Stat × ℤ :=
  match findRedirectTarget traits with
  | some s => (some s, 3 * max 0 (level - fromLevel))
  | none => (none, 0)

/-- Source getMostRecentSnapshotLevel: greatest snapshot key that is at most
the current level, or none. -/
def getMostRecentSnapshotLevel (snaps : List (ℤ × Snapshot)) (level : ℤ) :
    Option ℤ :=
  ((snaps.map Prod.fst).filter (fun l => l ≤ level)).max?

/-- Lookup of a snapshot by level (JavaScript object indexing). -/
def lookupSnapshot (snaps : List (ℤ × Snapshot)) (l : ℤ) : Option Snapshot :=
  snaps.lookup l

/-- The most recent applicable snapshot of a character, if any. -/
def snapshotOf (c : Character) : Option Snapshot :=
  (getMostRecentSnapshotLevel c.levelSnapshots c.level).bind
    (lookupSnapshot c.levelSnapshots)

/-- Value of `snapshotLevel || 1` as used for the redirected free points
starting level: null and 0 both collapse to 1. -/
def snapFromLevel (c : Character) : ℤ :=
  match getMostRecentSnapshotLevel c.levelSnapshots c.level with
  | none => 1
  | some l => if l = 0 then 1 else l

/-- Result record of getSnapshotIncludedTitleBonuses. -/
structure IncludedTitleBonuses where
  additive : ℚ
  multiplier : ℚ
  rawAdditive : ℚ
  traitMultiplier : ℚ

/-- Source getSnapshotIncludedTitleBonuses: ledgered title bonuses of a
snapshot, with the backwards-compatible fallback
`includedTitleBonuses || rawAdditive * traitMult` and the falsy collapses
`rawTitleBonuses || 0` and `includedTraitMultipliers || 1`. -/
def getSnapshotIncludedTitleBonuses (snap : Option Snapshot) (st : Stat) :
    IncludedTitleBonuses :=
  match snap with
  | none => ⟨0, 0, 0, 1⟩
  | some s =>
    let rawAdditive := s.rawTitleBonuses st
    let traitMult :=
      if s.includedTraitMultipliers st = 0 then 1 else s.includedTraitMultipliers st
    let additive :=
      if s.includedTitleBonuses st = 0 then rawAdditive * traitMult
      else s.includedTitleBonuses st
    ⟨additive, s.includedTitleMultipliers st, rawAdditive, traitMult⟩

/-- Source getSnapshotIncludedStatBoosts (additive, multiplier). -/
def getSnapshotIncludedStatBoosts (snap : Option Snapshot) (st : Stat) : ℚ × ℚ :=
  match snap with
  | none => (0, 0)
  | some s => (s.includedStatBoostBonuses st, s.includedStatBoostMultipliers st)

/-- Source getSnapshotIncludedDerivation. -/
def getSnapshotIncludedDerivation (snap : Option Snapshot) (st : Stat) : ℚ :=
  match snap with
  | none => 0
  | some s => s.includedDerivationBonuses st

/-- Source getSnapshotStatValue on a new-format snapshot:
`Number(snapshot.stats[statName]) || 0`. -/
def getSnapshotStatValue (snap : Option Snapshot) (st : Stat) : ℚ :=
  match snap with
  | none => 0
  | some s => s.stats st

/-- Effective start of the level range a phase contributes to:
`max(snapshotLevel + 1, classStart + 1)`, where the collapse
`cls.startLevel || 1` sends a stored 0 to 1. -/
def phaseEffectiveStart (snapLvl : ℤ) (cls : ClassPhase) : ℤ :=
  max (snapLvl + 1) ((if cls.startLevel = 0 then 1 else cls.startLevel) + 1)

/-- Effective end of the level range a phase contributes to:
`min(currentLevel, classEnd)`, with a null endLevel meaning no upper bound. -/
def phaseEffectiveEnd (level : ℤ) (cls : ClassPhase) : ℤ :=
  match cls.endLevel with
  | none => level
  | some e => min level e

/-- Guard of the calculateClassScaling loop body: the effective range of the
phase is nonempty and its per-level delta for the stat is positive. -/
def phaseOverlapPos (level snapLvl : ℤ) (st : Stat) (cls : ClassPhase) : Prop :=
  phaseEffectiveStart snapLvl cls ≤ phaseEffectiveEnd level cls ∧
    0 < cls.statsPerLevel st

instance (level snapLvl : ℤ) (st : Stat) (cls : ClassPhase) :
    Decidable (phaseOverlapPos level snapLvl st cls) :=
  inferInstanceAs (Decidable (_ ∧ _))

/-- Scaling contributed by one growth phase between a snapshot level and the
current level (body of the calculateClassScaling loop): overlap of
`[snapshotLevel + 1, currentLevel]` with `[classStart + 1, classEnd]`,
skipping phases whose per-level delta is not positive. -/
def phaseScaling (level snapLvl : ℤ) (st : Stat) (cls : ClassPhase) : ℚ :=
  if phaseOverlapPos level snapLvl st cls then
    cls.statsPerLevel st *
      ((phaseEffectiveEnd level cls - phaseEffectiveStart snapLvl cls + 1 : ℤ) : ℚ)
  else 0

/-- Source calculateClassScaling: total growth over all phases; zero when
the snapshot level is null (the guard at the top of the source function)
or the class history is empty. -/
def calculateClassScaling (c : Character) (st : Stat) (snapshotLevel : Option ℤ) : ℚ :=
  match snapshotLevel with
  | none => 0
  | some snapLvl =>
    c.classHistory.foldl (fun acc cls => acc + phaseScaling c.level snapLvl st cls) 0

/-- Step 9 of the composer: net new title additive.  New-format snapshots
(positive raw additive or trait multiplier different from 1) compare raw
title values, yielding zero when they are equal; otherwise the old-format
fallback compares trait-multiplied totals. -/
def netTitleAdditiveCalc (titleAdditive traitMult rawSnap snapTraitMult snapIncluded : ℚ) : ℚ :=
  if 0 < rawSnap ∨ snapTraitMult ≠ 1 then
    if titleAdditive = rawSnap then 0
    else titleAdditive * traitMult - rawSnap * snapTraitMult
  else titleAdditive * traitMult - snapIncluded

/-- Late-game escalation of step 11: at level 30 and above, a trait
multiplier above 1 also scales a positive net title rate. -/
def enhancedNetTitleMult (ntm0 traitMult : ℚ) (level : ℤ) : ℚ :=
  if 30 ≤ level ∧ 1 < traitMult ∧ 0 < ntm0 then ntm0 * traitMult else ntm0

/-- Step 12 of the composer: apply the combined net multiplicative rate only
when it is positive, then round. -/
def composeFinal (pre ntm nbm : ℚ) : ℤ :=
  if 0 < ntm + nbm then jsRound (pre * (1 + (ntm + nbm))) else jsRound pre

/-- Snapshot base of a stat (step 1). -/
def bdSnapshotBase (c : Character) (st : Stat) : ℚ :=
  getSnapshotStatValue (snapshotOf c) st

/-- Redirect result used by the composer (step 2), computed from the
snapshot level via `snapshotLevel || 1`. -/
def bdRedirected (c : Character) : Option Stat × ℤ :=
  getRedirectedFreePoints c.traits c.level (snapFromLevel c)

/-- Redirected free points landing on this stat (step 2). -/
def bdRedirectedFreePoints (c : Character) (st : Stat) : ℚ :=
  if (bdRedirected c).1 = some st then (((bdRedirected c).2 : ℤ) : ℚ) else 0

/-- Class scaling of this stat (step 3). -/
def bdClassScaling (c : Character) (st : Stat) : ℚ :=
  calculateClassScaling c st (getMostRecentSnapshotLevel c.levelSnapshots c.level)

/-- Manual free points (step 4): included only when no redirect is active
or this stat is the redirect target. -/
def bdFreePoints (c : Character) (st : Stat) : ℚ :=
  if (bdRedirected c).1 = none ∨ (bdRedirected c).1 = some st then c.freePoints st else 0

/-- Total gains before the trait multiplier (step 5). -/
def bdGainsBeforeTrait (c : Character) (st : Stat) : ℚ :=
  bdRedirectedFreePoints c st + bdClassScaling c st + bdFreePoints c st

/-- Trait multiplier of this stat (step 6). -/
def bdTraitMultiplier (c : Character) (st : Stat) : ℚ :=
  getTraitMultiplier c.traits st

/-- Gains after the trait multiplier (step 6). -/
def bdGainsAfterTrait (c : Character) (st : Stat) : ℚ :=
  bdGainsBeforeTrait c st * bdTraitMultiplier c st

/-- Current title additive total (step 7). -/
def bdTitleAdditive (c : Character) (st : Stat) : ℚ :=
  getTitleAdditiveBonuses c.titles st

/-- Ledgered title bonuses of the most recent snapshot. -/
def bdIncludedTitle (c : Character) (st : Stat) : IncludedTitleBonuses :=
  getSnapshotIncludedTitleBonuses (snapshotOf c) st

/-- Ledgered stat boost bonuses of the most recent snapshot. -/
def bdIncludedBoosts (c : Character) (st : Stat) : ℚ × ℚ :=
  getSnapshotIncludedStatBoosts (snapshotOf c) st

/-- Net new title additive of this stat (step 9). -/
def bdNetTitleAdditive (c : Character) (st : Stat) : ℚ :=
  netTitleAdditiveCalc (bdTitleAdditive c st) (bdTraitMultiplier c st)
    (bdIncludedTitle c st).rawAdditive (bdIncludedTitle c st).traitMultiplier
    (bdIncludedTitle c st).additive

/-- Current stat boost additive total (step 8). -/
def bdStatBoostAdditive (c : Character) (st : Stat) : ℚ :=
  getStatBoostAdditiveBonuses c.statBoosts st

/-- Net new boost additive (step 9): boosts are never trait-multiplied. -/
def bdNetBoostAdditive (c : Character) (st : Stat) : ℚ :=
  bdStatBoostAdditive c st - (bdIncludedBoosts c st).1

/-- Pre-multiplier value (step 10). -/
def bdPreFinalValue (c : Character) (st : Stat) : ℚ :=
  bdSnapshotBase c st + bdGainsAfterTrait c st + bdNetTitleAdditive c st +
    bdNetBoostAdditive c st

/-- Current title multiplier-rate total (step 11). -/
def bdTitleMultiplier (c : Character) (st : Stat) : ℚ :=
  getTitleMultiplierBonuses c.titles st

/-- Net title rate after the level-30 escalation (step 11); the source calls
this effectiveTitleMultiplier. -/
def bdNetTitleMultiplier (c : Character) (st : Stat) : ℚ :=
  enhancedNetTitleMult (bdTitleMultiplier c st - (bdIncludedTitle c st).multiplier)
    (bdTraitMultiplier c st) c.level

/-- Current boost multiplier-rate total (step 8). -/
def bdStatBoostMultiplier (c : Character) (st : Stat) : ℚ :=
  getStatBoostMultiplierBonuses c.statBoosts st

/-- Net boost rate (step 11); the trait multiplier is never applied here. -/
def bdNetBoostMultiplier (c : Character) (st : Stat) : ℚ :=
  bdStatBoostMultiplier c st - (bdIncludedBoosts c st).2

/-- Final value of one stat (step 12). -/
def bdFinal (c : Character) (st : Stat) : ℤ :=
  composeFinal (bdPreFinalValue c st) (bdNetTitleMultiplier c st)
    (bdNetBoostMultiplier c st)

/-- Breakdown record returned by calculateStatWithBreakdown (presentational
string fields and flags omitted). -/
structure Breakdown where
  snapshotBase : ℚ
  snapshotLevel : Option ℤ
  snapshotIncludedTitleAdditive : ℚ
  snapshotIncludedTitleMultiplier : ℚ
  snapshotIncludedBoostAdditive : ℚ
  snapshotIncludedBoostMultiplier : ℚ
  snapshotRawTitleAdditive : ℚ
  snapshotTraitMultiplier : ℚ
  redirectedFreePoints : ℚ
  classScaling : ℚ
  freePoints : ℚ
  traitMultiplier : ℚ
  gainsBeforeTrait : ℚ
  gainsAfterTrait : ℚ
  titleAdditive : ℚ
  titleAdditiveAfterTrait : ℚ
  titleMultiplier : ℚ
  netTitleAdditive : ℚ
  netBoostAdditive : ℚ
  statBoostAdditive : ℚ
  statBoostMultiplier : ℚ
  preFinalValue : ℚ
  netTitleMultiplier : ℚ
  netBoostMultiplier : ℚ
  final : ℤ

/-- Source calculateStatWithBreakdown: resolve one stat with its breakdown.
The value of the stat is the `final` field. -/
def calculateStatWithBreakdown (st : Stat) (c : Character) : Breakdown where
  snapshotBase := bdSnapshotBase c st
  snapshotLevel := getMostRecentSnapshotLevel c.levelSnapshots c.level
  snapshotIncludedTitleAdditive := (bdIncludedTitle c st).additive
  snapshotIncludedTitleMultiplier := (bdIncludedTitle c st).multiplier
  snapshotIncludedBoostAdditive := (bdIncludedBoosts c st).1
  snapshotIncludedBoostMultiplier := (bdIncludedBoosts c st).2
  snapshotRawTitleAdditive := (bdIncludedTitle c st).rawAdditive
  snapshotTraitMultiplier := (bdIncludedTitle c st).traitMultiplier
  redirectedFreePoints := bdRedirectedFreePoints c st
  classScaling := bdClassScaling c st
  freePoints := bdFreePoints c st
  traitMultiplier := bdTraitMultiplier c st
  gainsBeforeTrait := bdGainsBeforeTrait c st
  gainsAfterTrait := bdGainsAfterTrait c st
  titleAdditive := bdTitleAdditive c st
  titleAdditiveAfterTrait := bdTitleAdditive c st * bdTraitMultiplier c st
  titleMultiplier := bdTitleMultiplier c st
  netTitleAdditive := bdNetTitleAdditive c st
  netBoostAdditive := bdNetBoostAdditive c st
  statBoostAdditive := bdStatBoostAdditive c st
  statBoostMultiplier := bdStatBoostMultiplier c st
  preFinalValue := bdPreFinalValue c st
  netTitleMultiplier := bdNetTitleMultiplier c st
  netBoostMultiplier := bdNetBoostMultiplier c st
  final := bdFinal c st

/-- Accumulator of the second pass of calculateAllStats: the stats map plus
the derivationBonus breakdown field per stat (the only breakdown output the
snapshot-capture operation reads). -/
structure AllStats where
  stats : Stat → ℚ
  derivationBonus : Stat → ℚ

/-- One trait-sourced derivation rule applied in the second pass of
calculateAllStats: net bonus is the floored percentage of the current
resolved source minus the ledgered derivation bonus of the target; the
stats map is updated only when the net is nonzero, and the derivationBonus
breakdown field is overwritten with the gross bonus. -/
def derivStepTrait (snap : Option Snapshot) (acc : AllStats) (d : StatDerivation) :
    AllStats :=
  let bonus : ℤ := ⌊acc.stats d.sourceStat * (d.percent / 100)⌋
  let snapDeriv := getSnapshotIncludedDerivation snap d.targetStat
  let netBonus : ℚ := (bonus : ℚ) - snapDeriv
  { stats :=
      if netBonus ≠ 0 then
        Function.update acc.stats d.targetStat (acc.stats d.targetStat + netBonus)
      else acc.stats
    derivationBonus := Function.update acc.derivationBonus d.targetStat (bonus : ℚ) }

/-- One character-level derivation rule: identical to the trait-sourced step
except that the derivationBonus breakdown field accumulates
(`(breakdowns[target].derivationBonus || 0) + bonus`). -/
def derivStepChar (snap : Option Snapshot) (acc : AllStats) (d : StatDerivation) :
    AllStats :=
  let bonus : ℤ := ⌊acc.stats d.sourceStat * (d.percent / 100)⌋
  let snapDeriv := getSnapshotIncludedDerivation snap d.targetStat
  let netBonus : ℚ := (bonus : ℚ) - snapDeriv
  { stats :=
      if netBonus ≠ 0 then
        Function.update acc.stats d.targetStat (acc.stats d.targetStat + netBonus)
      else acc.stats
    derivationBonus :=
      Function.update acc.derivationBonus d.targetStat
        (acc.derivationBonus d.targetStat + (bonus : ℚ)) }

/-- Source calculateAllStats: first pass resolves every stat through the
composer; the second pass applies trait-sourced derivation rules, then the
character-level statDerivations list, each rule reading the already-updated
stats map. -/
def calculateAllStats (c : Character) : AllStats :=
  let firstPass : AllStats :=
    ⟨fun st => ((bdFinal c st : ℤ) : ℚ), fun _ => 0⟩
  let snap := snapshotOf c
  let afterTraits := (getStatDerivations c.traits).foldl (derivStepTrait snap) firstPass
  c.statDerivations.foldl (derivStepChar snap) afterTraits

/-- Derived resource record `{hp:{current,max}, mp:{current,max}}`. -/
structure DerivedStats where
  hpCurrent : ℚ
  hpMax : ℚ
  mpCurrent : ℚ
  mpMax : ℚ

/-- Source calculateDerivedStats: HP and MP maxima from constitution and
mana (plus bonded mana), with the stored current value clamped through
`Math.min(stored || max, max)` — a stored 0 is falsy and collapses to max. -/
def calculateDerivedStats (finalStats : Stat → ℚ) (c : Character) (bondedMana : ℚ) :
    DerivedStats :=
  let maxHp := finalStats Stat.constitution * 10
  let maxMp := (finalStats Stat.mana + bondedMana) * 10
  let storedHp :=
    match c.hpCurrent with
    | none => maxHp
    | some v => if v = 0 then maxHp else v
  let storedMp :=
    match c.mpCurrent with
    | none => maxMp
    | some v => if v = 0 then maxMp else v
  ⟨min storedHp maxHp, maxHp, min storedMp maxMp, maxMp⟩

/-- Source syncedManaForMain in CharacterContext.js: half of the resolved
mana of the bonded partner, rounded; zero when there is no bond or the
partner mana is falsy. -/
def syncedManaForMain (hasBond : Bool) (companionStats : Stat → ℚ) : ℚ :=
  if hasBond = false ∨ companionStats Stat.mana = 0 then 0
  else ((jsRound (companionStats Stat.mana / 2) : ℤ) : ℚ)

/-- View of the main character produced by CharacterContext.js: resolved
stats plus derived resources, with the bonded mana injected only into the
derived-resource computation. -/
structure MainView where
  stats : Stat → ℚ
  derived : DerivedStats

/-- Wiring of CharacterContext.js for the main character: mainFinalStats
from calculateAllStats, syncedManaForMain from the resolved companion, and
mainDerivedStats from calculateDerivedStats. -/
def mainPipeline (hasBond : Bool) (main companion : Character) : MainView :=
  let mainStats := (calculateAllStats main).stats
  let companionStats := (calculateAllStats companion).stats
  let synced := syncedManaForMain hasBond companionStats
  ⟨mainStats, calculateDerivedStats mainStats main synced⟩

/-- Source handleTakeSnapshot in Valtherion.js: capture a snapshot of the
current resolved stats at the current level, ledgering the current raw
title additives, title and boost rate totals, trait multipliers
(`breakdown.traitMultiplier || 1`), the trait-multiplied title additives,
and the derivation bonuses (`breakdown.derivationBonus || 0`), then store
it under the current level. -/
def takeSnapshot (c : Character) : Character :=
  let all := calculateAllStats c
  let rawTitleBonuses := fun st => getTitleAdditiveBonuses c.titles st
  let traitMultipliers := fun st =>
    let m := getTraitMultiplier c.traits st
    if m = 0 then 1 else m
  let snap : Snapshot :=
    { stats := all.stats
      rawTitleBonuses := rawTitleBonuses
      includedTraitMultipliers := traitMultipliers
      includedTitleBonuses := fun st => rawTitleBonuses st * traitMultipliers st
      includedTitleMultipliers := fun st => getTitleMultiplierBonuses c.titles st
      includedStatBoostBonuses := fun st => getStatBoostAdditiveBonuses c.statBoosts st
      includedStatBoostMultipliers := fun st => getStatBoostMultiplierBonuses c.statBoosts st
      includedDerivationBonuses := fun st => all.derivationBonus st }
  { c with
    levelSnapshots :=
      (c.level, snap) :: c.levelSnapshots.filter (fun p => p.1 ≠ c.level) }

/-- Net title additive as the (amended) specification words it: with a
positive recorded raw title additive or a recorded trait multiplier other
than 1, zero when the current raw title additive equals the recorded raw
value and `cur × mult − raw × snapMult` otherwise; without such a record,
the old-format fallback compares trait-multiplied totals. -/
def spec_netTitleAdditive (cur mult raw snapMult snapIncluded : ℚ) : ℚ :=
  if 0 < raw ∨ snapMult ≠ 1 then
    if cur = raw then 0 else cur * mult - raw * snapMult
  else cur * mult - snapIncluded

/-- Final value as the specification words it: the net title rate is scaled
by the trait multiplier exactly when the level is at least 30, the trait
multiplier exceeds 1 and the net title rate is positive (never the boost
rate); the combined net rate multiplies the pre-multiplier value only when
positive, and the result is rounded. -/
def spec_finalValue (pre netTitleRate netBoostRate traitMult : ℚ) (level : ℤ) : ℤ :=
  let ntr :=
    if 30 ≤ level ∧ 1 < traitMult ∧ 0 < netTitleRate then netTitleRate * traitMult
    else netTitleRate
  if 0 < ntr + netBoostRate then jsRound (pre * (1 + (ntr + netBoostRate)))
  else jsRound pre

/-- Action of one derivation rule as the specification words it:
`resolved[target] += floor(resolved[source] × percent / 100) −
snapshot.includedDerivationBonus[target]`, applied to the current stats map. -/
def spec_applyDerivation (snap : Option Snapshot) (stats : Stat → ℚ)
    (d : StatDerivation) : Stat → ℚ :=
  Function.update stats d.targetStat
    (stats d.targetStat +
      ((⌊stats d.sourceStat * (d.percent / 100)⌋ : ℤ) : ℚ) -
      getSnapshotIncludedDerivation snap d.targetStat)

/-- Replace the element at an index, leaving the list unchanged when the
index is out of range. -/
def modifyAt : List α → ℕ → (α → α) → List α
  | [], _, _ => []
  | x :: xs, 0, f => f x :: xs
  | x :: xs, Nat.succ i, f => x :: modifyAt xs i f

/-- Set the additive field of one title bonus entry. -/
def setTitleBonusAdditive (a : ℚ) (b : TitleBonus) : TitleBonus :=
  ⟨b.stat, a, b.value, b.multiplier⟩

/-- Set the additive field of entry j of title i. -/
def setTitleAdditiveAt (titles : List Title) (i j : ℕ) (a : ℚ) : List Title :=
  modifyAt titles i fun t => ⟨t.enabled, modifyAt t.bonuses j (setTitleBonusAdditive a)⟩

/-- Set the additive field of stat boost entry i. -/
def setBoostAdditiveAt (boosts : List StatBoost) (i : ℕ) (a : ℚ) : List StatBoost :=
  modifyAt boosts i fun b => ⟨b.stat, a, b.multiplier, b.enabled⟩

/-- Character with level 1 and every other field empty. -/
def emptyCharacter : Character :=
  ⟨1, [], fun _ => 0, [], [], [], [], [], none, none⟩

/-- Growth phase of the growth-boundary example:
`{startLevel: 5, endLevel: 10, perLevelDeltas: {strength: 2}}`. -/
def boundaryPhase : ClassPhase :=
  ⟨5, some 10, fun st => if st = Stat.strength then 2 else 0⟩

/-- Level-10 character with the growth-boundary phase. -/
def boundaryChar10 : Character :=
  { emptyCharacter with level := 10, classHistory := [boundaryPhase] }

/-- Level-5 character with the growth-boundary phase. -/
def boundaryChar5 : Character :=
  { emptyCharacter with level := 5, classHistory := [boundaryPhase] }

/-- Growth phase with a negative strength delta, used as the C10 witness. -/
def negativePhase : ClassPhase :=
  ⟨5, some 10, fun st => if st = Stat.strength then -1 else 0⟩

/-- Snapshot used by the C2 counterexample: raw title additive 10 on
strength recorded with trait multiplier 1. -/
def snapC2 : Snapshot :=
  { stats := fun _ => 0
    rawTitleBonuses := fun st => if st = Stat.strength then 10 else 0
    includedTraitMultipliers := fun _ => 1
    includedTitleBonuses := fun st => if st = Stat.strength then 10 else 0
    includedTitleMultipliers := fun _ => 0
    includedStatBoostBonuses := fun _ => 0
    includedStatBoostMultipliers := fun _ => 0
    includedDerivationBonuses := fun _ => 0 }

/-- Character of the C2 counterexample: the raw title additive is unchanged
since the snapshot (10), but a ×2 trait multiplier appeared afterwards. -/
def charC2 : Character :=
  { emptyCharacter with
    levelSnapshots := [(1, snapC2)]
    titles := [⟨true, [⟨Stat.strength, 10, 0, 0⟩]⟩]
    traits := [⟨[TraitEffect.statMultiplier Stat.strength 2]⟩] }

/-- Character of the C3 failing input: 9 manual free points on strength at
level 5, no other data. -/
def charC3 : Character :=
  { emptyCharacter with
    level := 5
    freePoints := fun st => if st = Stat.strength then 9 else 0 }

/-- Snapshot used by the C4 counterexample: raw title additive 10 on
strength recorded together with a ×5 trait multiplier, baked into a
strength of 100. -/
def snapC4 : Snapshot :=
  { stats := fun st => if st = Stat.strength then 100 else 0
    rawTitleBonuses := fun st => if st = Stat.strength then 10 else 0
    includedTraitMultipliers := fun st => if st = Stat.strength then 5 else 1
    includedTitleBonuses := fun st => if st = Stat.strength then 50 else 0
    includedTitleMultipliers := fun _ => 0
    includedStatBoostBonuses := fun _ => 0
    includedStatBoostMultipliers := fun _ => 0
    includedDerivationBonuses := fun _ => 0 }

/-- Character of the C4 counterexample: the trait granting the recorded ×5
multiplier is gone, title additive 10 on strength still present. -/
def charC4 : Character :=
  { emptyCharacter with
    levelSnapshots := [(1, snapC4)]
    titles := [⟨true, [⟨Stat.strength, 10, 0, 0⟩]⟩] }

/-- Character charC4 after raising the title additive entry from 10 to 11. -/
def charC4bumped : Character :=
  { charC4 with titles := setTitleAdditiveAt charC4.titles 0 0 11 }

/-- Character used by the C4 witness: one enabled title bonus and one
enabled stat boost, both on strength. -/
def charC4w : Character :=
  { emptyCharacter with
    titles := [⟨true, [⟨Stat.strength, 1, 0, 0⟩]⟩]
    statBoosts := [⟨Stat.strength, 1, 0, true⟩] }

/-- Character of the redirect examples: redirect to mana active, level 4,
9 manual free points stored on strength. -/
def charC5 : Character :=
  { emptyCharacter with
    level := 4
    freePoints := fun st => if st = Stat.strength then 9 else 0
    traits := [⟨[TraitEffect.redirectFreePoints Stat.mana]⟩] }

/-- Character of the C5 counterexample: redirect to mana active, level 4,
5 manual free points stored on mana itself. -/
def charC5cex : Character :=
  { emptyCharacter with
    level := 4
    freePoints := fun st => if st = Stat.mana then 5 else 0
    traits := [⟨[TraitEffect.redirectFreePoints Stat.mana]⟩] }

/-- Snapshot of the C7 example: willpower baked at 100 and a derivation
bonus of 10 already included on intellect. -/
def snapC7 : Snapshot :=
  { stats := fun st => if st = Stat.willpower then 100 else 0
    rawTitleBonuses := fun _ => 0
    includedTraitMultipliers := fun _ => 1
    includedTitleBonuses := fun _ => 0
    includedTitleMultipliers := fun _ => 0
    includedStatBoostBonuses := fun _ => 0
    includedStatBoostMultipliers := fun _ => 0
    includedDerivationBonuses := fun st => if st = Stat.intellect then 10 else 0 }

/-- Character of the C7 example: a 25 percent willpower-to-intellect
derivation with the snapshot above. -/
def charC7 : Character :=
  { emptyCharacter with
    levelSnapshots := [(1, snapC7)]
    traits := [⟨[TraitEffect.statDerivation Stat.willpower Stat.intellect 25]⟩] }

/-- Stats map of the C8 examples: constitution 5, everything else 0. -/
def statsC8 : Stat → ℚ :=
  fun st => if st = Stat.constitution then 5 else 0

/-- Character of the C8 counterexample: a stored current HP of 0. -/
def charC8 : Character := { emptyCharacter with hpCurrent := some 0 }

/-- Character of the C8 witness: a stored current HP of 30 and no stored
current MP. -/
def charC8w : Character := { emptyCharacter with hpCurrent := some 30 }

attribute [simp] jsRound bonusAdditiveContribution bonusMultiplierContribution
  getTitleAdditiveBonuses getTitleMultiplierBonuses getStatBoostAdditiveBonuses
  getStatBoostMultiplierBonuses effectMultFactor getTraitMultiplier
  getStatDerivations effectDerivation effectRedirect findRedirectTarget
  getRedirectedFreePoints
  getMostRecentSnapshotLevel lookupSnapshot snapshotOf snapFromLevel
  getSnapshotIncludedTitleBonuses getSnapshotIncludedStatBoosts
  getSnapshotIncludedDerivation getSnapshotStatValue phaseEffectiveStart
  phaseEffectiveEnd phaseOverlapPos phaseScaling
  calculateClassScaling netTitleAdditiveCalc enhancedNetTitleMult composeFinal
  bdSnapshotBase bdRedirected bdRedirectedFreePoints bdClassScaling bdFreePoints
  bdGainsBeforeTrait bdTraitMultiplier bdGainsAfterTrait bdTitleAdditive
  bdIncludedTitle bdIncludedBoosts bdNetTitleAdditive bdStatBoostAdditive
  bdNetBoostAdditive bdPreFinalValue bdTitleMultiplier bdNetTitleMultiplier
  bdStatBoostMultiplier bdNetBoostMultiplier bdFinal
  derivStepTrait derivStepChar calculateAllStats calculateDerivedStats
  syncedManaForMain mainPipeline takeSnapshot spec_netTitleAdditive
  spec_finalValue spec_applyDerivation modifyAt setTitleBonusAdditive
  setTitleAdditiveAt setBoostAdditiveAt

/-- Projection of the breakdown record: final value. -/
@[simp] theorem calcStat_final (st : Stat) (c : Character) :
    (calculateStatWithBreakdown st c).final = bdFinal c st := rfl

/-- Projection of the breakdown record: manual free points. -/
@[simp] theorem calcStat_freePoints (st : Stat) (c : Character) :
    (calculateStatWithBreakdown st c).freePoints = bdFreePoints c st := rfl

/-- Projection of the breakdown record: redirected free points. -/
@[simp] theorem calcStat_redirectedFreePoints (st : Stat) (c : Character) :
    (calculateStatWithBreakdown st c).redirectedFreePoints =
      bdRedirectedFreePoints c st := rfl

/-- Projection of the breakdown record: net title additive. -/
@[simp] theorem calcStat_netTitleAdditive (st : Stat) (c : Character) :
    (calculateStatWithBreakdown st c).netTitleAdditive = bdNetTitleAdditive c st := rfl

/-- Projection of the breakdown record: current title additive total. -/
@[simp] theorem calcStat_titleAdditive (st : Stat) (c : Character) :
    (calculateStatWithBreakdown st c).titleAdditive = bdTitleAdditive c st := rfl

/-- Projection of the breakdown record: trait multiplier. -/
@[simp] theorem calcStat_traitMultiplier (st : Stat) (c : Character) :
    (calculateStatWithBreakdown st c).traitMultiplier = bdTraitMultiplier c st := rfl

/-- Projection of the breakdown record: ledgered raw title additive. -/
@[simp] theorem calcStat_snapshotRawTitleAdditive (st : Stat) (c : Character) :
    (calculateStatWithBreakdown st c).snapshotRawTitleAdditive =
      (bdIncludedTitle c st).rawAdditive := rfl

/-- Projection of the breakdown record: ledgered trait multiplier. -/
@[simp] theorem calcStat_snapshotTraitMultiplier (st : Stat) (c : Character) :
    (calculateStatWithBreakdown st c).snapshotTraitMultiplier =
      (bdIncludedTitle c st).traitMultiplier := rfl

/-- Projection of the breakdown record: ledgered title additive. -/
@[simp] theorem calcStat_snapshotIncludedTitleAdditive (st : Stat) (c : Character) :
    (calculateStatWithBreakdown st c).snapshotIncludedTitleAdditive =
      (bdIncludedTitle c st).additive := rfl

/-- Projection of the breakdown record: ledgered title rate. -/
@[simp] theorem calcStat_snapshotIncludedTitleMultiplier (st : Stat) (c : Character) :
    (calculateStatWithBreakdown st c).snapshotIncludedTitleMultiplier =
      (bdIncludedTitle c st).multiplier := rfl

/-- Projection of the breakdown record: ledgered boost rate. -/
@[simp] theorem calcStat_snapshotIncludedBoostMultiplier (st : Stat) (c : Character) :
    (calculateStatWithBreakdown st c).snapshotIncludedBoostMultiplier =
      (bdIncludedBoosts c st).2 := rfl

/-- Projection of the breakdown record: current title rate total. -/
@[simp] theorem calcStat_titleMultiplier (st : Stat) (c : Character) :
    (calculateStatWithBreakdown st c).titleMultiplier = bdTitleMultiplier c st := rfl

/-- Projection of the breakdown record: current boost rate total. -/
@[simp] theorem calcStat_statBoostMultiplier (st : Stat) (c : Character) :
    (calculateStatWithBreakdown st c).statBoostMultiplier =
      bdStatBoostMultiplier c st := rfl

/-- Projection of the breakdown record: pre-multiplier value. -/
@[simp] theorem calcStat_preFinalValue (st : Stat) (c : Character) :
    (calculateStatWithBreakdown st c).preFinalValue = bdPreFinalValue c st := rfl

/-- Projection of the derived resources: maximum HP. -/
@[simp] theorem calcDerived_hpMax (fs : Stat → ℚ) (c : Character) (bm : ℚ) :
    (calculateDerivedStats fs c bm).hpMax = fs Stat.constitution * 10 := rfl

/-- Projection of the derived resources: maximum MP. -/
@[simp] theorem calcDerived_mpMax (fs : Stat → ℚ) (c : Character) (bm : ℚ) :
    (calculateDerivedStats fs c bm).mpMax = (fs Stat.mana + bm) * 10 := rfl

/-- Projection of the derived resources: current HP does not involve the
bonded mana. -/
@[simp] theorem calcDerived_hpCurrent (fs : Stat → ℚ) (c : Character) (bm : ℚ) :
    (calculateDerivedStats fs c bm).hpCurrent =
      min
        (match c.hpCurrent with
          | none => fs Stat.constitution * 10
          | some v => if v = 0 then fs Stat.constitution * 10 else v)
        (fs Stat.constitution * 10) := rfl

/-- Projection of the main-character pipeline: resolved stats. -/
@[simp] theorem mainPipeline_stats (hb : Bool) (main companion : Character) :
    (mainPipeline hb main companion).stats = (calculateAllStats main).stats := rfl

/-- Projection of the main-character pipeline: derived resources. -/
@[simp] theorem mainPipeline_derived (hb : Bool) (main companion : Character) :
    (mainPipeline hb main companion).derived =
      calculateDerivedStats (calculateAllStats main).stats main
        (syncedManaForMain hb ((calculateAllStats companion).stats)) := rfl

/-- Folding addition of a mapped function equals the initial value plus the
sum of the mapped list. -/
theorem foldl_add_eq_add_sum {α : Type} (f : α → ℚ) :
    ∀ (l : List α) (i : ℚ), l.foldl (fun acc x => acc + f x) i = i + (l.map f).sum
  | [], i => by simp
  | x :: xs, i => by
    rw [List.foldl_cons, foldl_add_eq_add_sum f xs (i + f x), List.map_cons,
      List.sum_cons]
    ring

/-- A sum of pointwise nonnegative values vanishes exactly when every value
vanishes. -/
theorem sum_map_eq_zero_iff {α : Type} (f : α → ℚ) (l : List α)
    (h : ∀ x ∈ l, 0 ≤ f x) : (l.map f).sum = 0 ↔ ∀ x ∈ l, f x = 0 := by
  induction l with
  | nil => simp
  | cons x xs ih =>
    have hx : 0 ≤ f x := h x (List.mem_cons_self x xs)
    have hxs : ∀ y ∈ xs, 0 ≤ f y := fun y hy => h y (List.mem_cons_of_mem x hy)
    have hsum : 0 ≤ (xs.map f).sum := by
      apply List.sum_nonneg
      intro z hz
      obtain ⟨y, hy, rfl⟩ := List.mem_map.mp hz
      exact hxs y hy
    rw [List.map_cons, List.sum_cons]
    constructor
    · intro h0
      have h1 : f x = 0 := le_antisymm (by linarith) hx
      have h2 : (xs.map f).sum = 0 := by linarith
      intro y hy
      rcases List.mem_cons.mp hy with hy1 | hy2
      · rw [hy1]; exact h1
      · exact ((ih hxs).mp h2) y hy2
    · intro hall
      have h1 : f x = 0 := hall x (List.mem_cons_self x xs)
      have h2 : (xs.map f).sum = 0 :=
        (ih hxs).mpr fun y hy => hall y (List.mem_cons_of_mem x hy)
      rw [h1, h2, add_zero]

/-- A phase passing the loop guard contributes a positive amount. -/
theorem phaseScaling_pos {level snapLvl : ℤ} {st : Stat} {cls : ClassPhase}
    (h : phaseOverlapPos level snapLvl st cls) : 0 < phaseScaling level snapLvl st cls := by
  unfold phaseScaling
  rw [if_pos h]
  obtain ⟨hle, hpos⟩ := h
  have h1 : (0 : ℤ) < phaseEffectiveEnd level cls - phaseEffectiveStart snapLvl cls + 1 := by
    omega
  have h2 : (0 : ℚ) <
      ((phaseEffectiveEnd level cls - phaseEffectiveStart snapLvl cls + 1 : ℤ) : ℚ) := by
    exact_mod_cast h1
  exact mul_pos hpos h2

/-- Phase contributions are never negative. -/
theorem phaseScaling_nonneg (level snapLvl : ℤ) (st : Stat) (cls : ClassPhase) :
    0 ≤ phaseScaling level snapLvl st cls := by
  by_cases h : phaseOverlapPos level snapLvl st cls
  · exact le_of_lt (phaseScaling_pos h)
  · unfold phaseScaling
    rw [if_neg h]

/-- A phase contribution vanishes exactly when the loop guard fails. -/
theorem phaseScaling_eq_zero_iff {level snapLvl : ℤ} {st : Stat} {cls : ClassPhase} :
    phaseScaling level snapLvl st cls = 0 ↔ ¬ phaseOverlapPos level snapLvl st cls := by
  constructor
  · intro h0 hcond
    exact absurd h0 (ne_of_gt (phaseScaling_pos hcond))
  · intro h
    unfold phaseScaling
    rw [if_neg h]

/-- With a snapshot level present, class scaling is the sum of the phase
contributions. -/
theorem calculateClassScaling_some (c : Character) (st : Stat) (l : ℤ) :
    calculateClassScaling c st (some l) =
      (c.classHistory.map (phaseScaling c.level l st)).sum := by
  show c.classHistory.foldl (fun acc cls => acc + phaseScaling c.level l st cls) 0 = _
  rw [foldl_add_eq_add_sum, zero_add]

/-- JavaScript rounding is monotone. -/
theorem jsRound_mono {a b : ℚ} (h : a ≤ b) : jsRound a ≤ jsRound b :=
  Int.floor_mono (by linarith)

/-- The final composition step is monotone in the pre-multiplier value. -/
theorem composeFinal_mono_pre {p₁ p₂ t b : ℚ} (h : p₁ ≤ p₂) :
    composeFinal p₁ t b ≤ composeFinal p₂ t b := by
  unfold composeFinal
  split_ifs with ht
  · exact jsRound_mono (mul_le_mul_of_nonneg_right h (by linarith))
  · exact jsRound_mono h

/-- With an unchanged, nonnegative trait multiplier equal to the ledgered
one, the net title additive is monotone in the current title additive. -/
theorem netTitleAdditiveCalc_mono {T₁ T₂ m raw incl : ℚ} (hT : T₁ ≤ T₂) (hm : 0 ≤ m) :
    netTitleAdditiveCalc T₁ m raw m incl ≤ netTitleAdditiveCalc T₂ m raw m incl := by
  have key : (T₂ - T₁) * m ≥ 0 := mul_nonneg (by linarith) hm
  unfold netTitleAdditiveCalc
  split_ifs <;> nlinarith [key]

/-- Effect of modifying one list entry on the sum of a mapped function. -/
theorem map_sum_modifyAt {α : Type} (g : α → ℚ) (f : α → α) :
    ∀ (l : List α) (i : ℕ),
      ((modifyAt l i f).map g).sum =
        (l.map g).sum + (l[i]?.elim 0 fun x => g (f x) - g x)
  | [], i => by simp [modifyAt]
  | x :: xs, 0 => by
    simp only [modifyAt, List.map_cons, List.sum_cons, List.getElem?_cons_zero,
      Option.elim]
    ring
  | x :: xs, Nat.succ i => by
    simp only [modifyAt, List.map_cons, List.sum_cons, List.getElem?_cons_succ,
      map_sum_modifyAt g f xs i]
    ring

/-- Raising the additive field of one bonus entry with zero legacy value
does not lower the additive contribution sum of a title. -/
theorem titleAdditiveEntry_le (t : Title) (j : ℕ) (a : ℚ) (st : Stat)
    (h : ∀ b, t.bonuses[j]? = some b → b.value = 0 ∧ b.additive ≤ a) :
    (t.bonuses.map (bonusAdditiveContribution st)).sum ≤
      ((modifyAt t.bonuses j (setTitleBonusAdditive a)).map
        (bonusAdditiveContribution st)).sum := by
  rw [map_sum_modifyAt]
  cases hbj : t.bonuses[j]? with
  | none => simp
  | some b =>
    obtain ⟨hv, hle⟩ := h b hbj
    simp only [Option.elim]
    have hcontrib : bonusAdditiveContribution st b ≤
        bonusAdditiveContribution st (setTitleBonusAdditive a b) := by
      unfold bonusAdditiveContribution setTitleBonusAdditive
      simp only
      split_ifs <;> simp_all
    linarith

/-- Changing the additive field of one bonus entry leaves the multiplier
contribution sum of a title unchanged. -/
theorem titleMultiplierEntry_eq (t : Title) (j : ℕ) (a : ℚ) (st : Stat) :
    ((modifyAt t.bonuses j (setTitleBonusAdditive a)).map
      (bonusMultiplierContribution st)).sum =
      (t.bonuses.map (bonusMultiplierContribution st)).sum := by
  rw [map_sum_modifyAt]
  cases hbj : t.bonuses[j]? with
  | none => simp
  | some b => simp [bonusMultiplierContribution, setTitleBonusAdditive]

/-- Raising one title additive entry (zero legacy value) does not lower the
current title additive total. -/
theorem getTitleAdditiveBonuses_set_ge (titles : List Title) (i j : ℕ) (a : ℚ)
    (st : Stat)
    (h : ∀ t, titles[i]? = some t →
      ∀ b, t.bonuses[j]? = some b → b.value = 0 ∧ b.additive ≤ a) :
    getTitleAdditiveBonuses titles st ≤
      getTitleAdditiveBonuses (setTitleAdditiveAt titles i j a) st := by
  unfold getTitleAdditiveBonuses setTitleAdditiveAt
  rw [map_sum_modifyAt]
  cases hti : titles[i]? with
  | none => simp
  | some t =>
    simp only [Option.elim]
    have h2 := titleAdditiveEntry_le t j a st (h t hti)
    have key : (if t.enabled = false then (0 : ℚ)
          else (t.bonuses.map (bonusAdditiveContribution st)).sum) ≤
        (if t.enabled = false then (0 : ℚ)
          else ((modifyAt t.bonuses j (setTitleBonusAdditive a)).map
            (bonusAdditiveContribution st)).sum) := by
      split_ifs
      · exact le_refl 0
      · exact h2
    linarith [key]

/-- Raising one title additive entry leaves the title multiplier total
unchanged. -/
theorem getTitleMultiplierBonuses_set_eq (titles : List Title) (i j : ℕ) (a : ℚ)
    (st : Stat) :
    getTitleMultiplierBonuses (setTitleAdditiveAt titles i j a) st =
      getTitleMultiplierBonuses titles st := by
  unfold getTitleMultiplierBonuses setTitleAdditiveAt
  rw [map_sum_modifyAt]
  cases hti : titles[i]? with
  | none => simp
  | some t =>
    simp only [Option.elim]
    rw [titleMultiplierEntry_eq]
    by_cases he : t.enabled = false <;> simp [he]

/-- Raising one stat boost additive entry does not lower the boost additive
total. -/
theorem getStatBoostAdditiveBonuses_set_ge (boosts : List StatBoost) (i : ℕ)
    (a : ℚ) (st : Stat) (h : ∀ b, boosts[i]? = some b → b.additive ≤ a) :
    getStatBoostAdditiveBonuses boosts st ≤
      getStatBoostAdditiveBonuses (setBoostAdditiveAt boosts i a) st := by
  unfold getStatBoostAdditiveBonuses setBoostAdditiveAt
  rw [map_sum_modifyAt]
  cases hbi : boosts[i]? with
  | none => simp
  | some b =>
    have hle := h b hbi
    simp only [Option.elim]
    by_cases he : b.enabled = false <;> by_cases hs : b.stat = st <;>
      simp [he, hs] <;> linarith

/-- Raising one stat boost additive entry leaves the boost multiplier total
unchanged. -/
theorem getStatBoostMultiplierBonuses_set_eq (boosts : List StatBoost) (i : ℕ)
    (a : ℚ) (st : Stat) :
    getStatBoostMultiplierBonuses (setBoostAdditiveAt boosts i a) st =
      getStatBoostMultiplierBonuses boosts st := by
  unfold getStatBoostMultiplierBonuses setBoostAdditiveAt
  rw [map_sum_modifyAt]
  cases hbi : boosts[i]? with
  | none => simp
  | some b =>
    by_cases he : b.enabled = false <;> by_cases hs : b.stat = st <;> simp [he, hs]

/-- Monotonicity of the composed stat value in the titles list, assuming
the additive total rises, the rate total is unchanged, and the current
trait multiplier is nonnegative and equal to the ledgered one. -/
theorem bdFinal_mono_titles (c : Character) (st : Stat) (t2 : List Title)
    (hA : getTitleAdditiveBonuses c.titles st ≤ getTitleAdditiveBonuses t2 st)
    (hM : getTitleMultiplierBonuses t2 st = getTitleMultiplierBonuses c.titles st)
    (hTm : (bdIncludedTitle c st).traitMultiplier = bdTraitMultiplier c st)
    (h0 : 0 ≤ bdTraitMultiplier c st) :
    bdFinal c st ≤ bdFinal { c with titles := t2 } st := by
  have key0 : bdFinal c st =
      composeFinal
        (bdSnapshotBase c st + bdGainsAfterTrait c st +
          netTitleAdditiveCalc (getTitleAdditiveBonuses c.titles st)
            (bdTraitMultiplier c st) (bdIncludedTitle c st).rawAdditive
            (bdIncludedTitle c st).traitMultiplier (bdIncludedTitle c st).additive +
          bdNetBoostAdditive c st)
        (enhancedNetTitleMult
          (getTitleMultiplierBonuses c.titles st - (bdIncludedTitle c st).multiplier)
          (bdTraitMultiplier c st) c.level)
        (bdNetBoostMultiplier c st) := rfl
  have key1 : bdFinal { c with titles := t2 } st =
      composeFinal
        (bdSnapshotBase c st + bdGainsAfterTrait c st +
          netTitleAdditiveCalc (getTitleAdditiveBonuses t2 st)
            (bdTraitMultiplier c st) (bdIncludedTitle c st).rawAdditive
            (bdIncludedTitle c st).traitMultiplier (bdIncludedTitle c st).additive +
          bdNetBoostAdditive c st)
        (enhancedNetTitleMult
          (getTitleMultiplierBonuses t2 st - (bdIncludedTitle c st).multiplier)
          (bdTraitMultiplier c st) c.level)
        (bdNetBoostMultiplier c st) := rfl
  rw [key0, key1, hM, hTm]
  apply composeFinal_mono_pre
  have h1 := @netTitleAdditiveCalc_mono (getTitleAdditiveBonuses c.titles st)
    (getTitleAdditiveBonuses t2 st) (bdTraitMultiplier c st)
    ((bdIncludedTitle c st).rawAdditive) ((bdIncludedTitle c st).additive) hA h0
  linarith

/-- Monotonicity of the composed stat value in the stat boosts list,
assuming the additive total rises and the rate total is unchanged. -/
theorem bdFinal_mono_boosts (c : Character) (st : Stat) (b2 : List StatBoost)
    (hA : getStatBoostAdditiveBonuses c.statBoosts st ≤
      getStatBoostAdditiveBonuses b2 st)
    (hM : getStatBoostMultiplierBonuses b2 st =
      getStatBoostMultiplierBonuses c.statBoosts st) :
    bdFinal c st ≤ bdFinal { c with statBoosts := b2 } st := by
  have key0 : bdFinal c st =
      composeFinal
        (bdSnapshotBase c st + bdGainsAfterTrait c st + bdNetTitleAdditive c st +
          (getStatBoostAdditiveBonuses c.statBoosts st - (bdIncludedBoosts c st).1))
        (bdNetTitleMultiplier c st)
        (getStatBoostMultiplierBonuses c.statBoosts st - (bdIncludedBoosts c st).2) := rfl
  have key1 : bdFinal { c with statBoosts := b2 } st =
      composeFinal
        (bdSnapshotBase c st + bdGainsAfterTrait c st + bdNetTitleAdditive c st +
          (getStatBoostAdditiveBonuses b2 st - (bdIncludedBoosts c st).1))
        (bdNetTitleMultiplier c st)
        (getStatBoostMultiplierBonuses b2 st - (bdIncludedBoosts c st).2) := rfl
  rw [key0, key1, hM]
  exact composeFinal_mono_pre (by linarith)

/-- C4 (amended).  Increasing the additive value of any stat-boost entry
never decreases the resolved stat.  Increasing the additive value of a
title bonus entry never decreases the resolved stat provided the legacy
value field of that entry is zero and the current trait multiplier of the
stat is nonnegative and equal to the trait multiplier recorded in the most
recent snapshot; without the latter condition the claim fails (see the
counterexample). -/
theorem claim_c4_amended :
    (∀ (c : Character) (st : Stat) (i : ℕ) (a : ℚ),
      (∀ b, c.statBoosts[i]? = some b → b.additive ≤ a) →
      (calculateStatWithBreakdown st c).final ≤
        (calculateStatWithBreakdown st
          { c with statBoosts := setBoostAdditiveAt c.statBoosts i a }).final) ∧
    (∀ (c : Character) (st : Stat) (i j : ℕ) (a : ℚ),
      (∀ t, c.titles[i]? = some t →
        ∀ b, t.bonuses[j]? = some b → b.value = 0 ∧ b.additive ≤ a) →
      (bdIncludedTitle c st).traitMultiplier = bdTraitMultiplier c st →
      0 ≤ bdTraitMultiplier c st →
      (calculateStatWithBreakdown st c).final ≤
        (calculateStatWithBreakdown st
          { c with titles := setTitleAdditiveAt c.titles i j a }).final) := by
  constructor
  · intro c st i a h
    show bdFinal c st ≤ bdFinal { c with statBoosts := setBoostAdditiveAt c.statBoosts i a } st
    exact bdFinal_mono_boosts c st (setBoostAdditiveAt c.statBoosts i a)
      (getStatBoostAdditiveBonuses_set_ge c.statBoosts i a st h)
      (getStatBoostMultiplierBonuses_set_eq c.statBoosts i a st)
  · intro c st i j a h hTm h0
    show bdFinal c st ≤ bdFinal { c with titles := setTitleAdditiveAt c.titles i j a } st
    exact bdFinal_mono_titles c st (setTitleAdditiveAt c.titles i j a)
      (getTitleAdditiveBonuses_set_ge c.titles i j a st h)
      (getTitleMultiplierBonuses_set_eq c.titles i j a st) hTm h0

/-- C1 (counterexample).  With no snapshot (null snapshotLevel), the Growth
Table Resolver returns 0 for the level-10 character with the growth phase
`{startLevel: 5, endLevel: 10, perLevelDeltas: {strength: 2}}`, not the 10
asserted by the claim. -/
theorem claim_c1_counterexample :
    calculateClassScaling boundaryChar10 Stat.strength none = 0 ∧
    calculateClassScaling boundaryChar10 Stat.strength none ≠ 10 := by
  have h0 : calculateClassScaling boundaryChar10 Stat.strength none = 0 := rfl
  refine ⟨h0, ?_⟩
  rw [h0]
  norm_num

/-- C1 (amended).  With a snapshot at level 0, the boundary phase yields
strength growth 10 at level 10 and 0 at level 5; with a null snapshot level
the growth contribution is always zero, whatever the level; with a snapshot
present, the contribution is zero exactly when no phase with a positive
per-level delta for the stat has a nonempty overlap with
`[snapshotLevel + 1, currentLevel]`. -/
theorem claim_c1_amended :
    calculateClassScaling boundaryChar10 Stat.strength (some 0) = 10 ∧
    calculateClassScaling boundaryChar5 Stat.strength (some 0) = 0 ∧
    (∀ (c : Character) (st : Stat), calculateClassScaling c st none = 0) ∧
    (∀ (c : Character) (st : Stat) (l : ℤ),
      calculateClassScaling c st (some l) = 0 ↔
        ∀ cls ∈ c.classHistory, ¬ phaseOverlapPos c.level l st cls) := by
  refine ⟨?_, ?_, ?_, ?_⟩
  · norm_num [boundaryChar10, emptyCharacter, boundaryPhase]
  · norm_num [boundaryChar5, emptyCharacter, boundaryPhase]
  · intro c st
    rfl
  · intro c st l
    rw [calculateClassScaling_some,
      sum_map_eq_zero_iff (phaseScaling c.level l st) c.classHistory
        (fun x _ => phaseScaling_nonneg c.level l st x)]
    constructor
    · intro h cls hm
      exact phaseScaling_eq_zero_iff.mp (h cls hm)
    · intro h cls hm
      exact phaseScaling_eq_zero_iff.mpr (h cls hm)

/-- C1 (witness).  Applying the amended equivalence at the level-5 boundary
example shows its phase fails the overlap guard there. -/
theorem claim_c1_witness :
    ¬ phaseOverlapPos boundaryChar5.level 0 Stat.strength boundaryPhase := by
  have h := (claim_c1_amended.2.2.2 boundaryChar5 Stat.strength 0).mp
    claim_c1_amended.2.1
  exact h boundaryPhase (by simp [boundaryChar5, emptyCharacter])

/-- C10.  The growth contribution is nonnegative for every character, stat
and snapshot level, and a leading phase whose per-level delta for the stat
is zero or negative is skipped entirely, leaving the total unchanged. -/
theorem claim_c10_nonneg_growth :
    (∀ (c : Character) (st : Stat) (sl : Option ℤ),
      0 ≤ calculateClassScaling c st sl) ∧
    (∀ (c : Character) (st : Stat) (sl : Option ℤ) (cls : ClassPhase)
      (rest : List ClassPhase), cls.statsPerLevel st ≤ 0 →
      calculateClassScaling { c with classHistory := cls :: rest } st sl =
        calculateClassScaling { c with classHistory := rest } st sl) := by
  constructor
  · intro c st sl
    cases sl with
    | none => exact le_refl 0
    | some l =>
      rw [calculateClassScaling_some]
      apply List.sum_nonneg
      intro x hx
      obtain ⟨cls, hm, rfl⟩ := List.mem_map.mp hx
      exact phaseScaling_nonneg c.level l st cls
  · intro c st sl cls rest h
    cases sl with
    | none => rfl
    | some l =>
      rw [calculateClassScaling_some, calculateClassScaling_some]
      show ((cls :: rest).map (phaseScaling c.level l st)).sum =
        (rest.map (phaseScaling c.level l st)).sum
      rw [List.map_cons, List.sum_cons]
      have hz : phaseScaling c.level l st cls = 0 := by
        apply phaseScaling_eq_zero_iff.mpr
        rintro ⟨_, hpos⟩
        linarith
      rw [hz, zero_add]

/-- C10 (witness).  The nonnegativity and the skip of a negative-delta
phase, applied at the boundary example. -/
theorem claim_c10_witness :
    0 ≤ calculateClassScaling boundaryChar10 Stat.strength (some 0) ∧
    calculateClassScaling { boundaryChar10 with classHistory := [negativePhase] }
        Stat.strength (some 0) =
      calculateClassScaling { boundaryChar10 with classHistory := [] }
        Stat.strength (some 0) := by
  constructor
  · exact claim_c10_nonneg_growth.1 boundaryChar10 Stat.strength (some 0)
  · exact claim_c10_nonneg_growth.2 boundaryChar10 Stat.strength (some 0)
      negativePhase [] (by norm_num [negativePhase])

/-- C2 (counterexample).  In charC2 the snapshot recorded raw title
additive values (raw value 10), the trait multiplier changed from 1 to 2
with title additives unchanged, yet the net title additive the composer
uses is 0, not the nonzero `current × trait − raw × snapTrait` the claim
asserts. -/
theorem claim_c2_counterexample :
    (calculateStatWithBreakdown Stat.strength charC2).netTitleAdditive ≠
      (calculateStatWithBreakdown Stat.strength charC2).titleAdditive *
          (calculateStatWithBreakdown Stat.strength charC2).traitMultiplier -
        (calculateStatWithBreakdown Stat.strength charC2).snapshotRawTitleAdditive *
          (calculateStatWithBreakdown Stat.strength charC2).snapshotTraitMultiplier := by
  norm_num [charC2, snapC2, emptyCharacter]

/-- C2 (amended).  For every stat, when the snapshot carries a positive raw
title additive or a recorded trait multiplier other than 1, the net title
additive is zero if the current raw title additive equals the recorded raw
value and `current × trait − raw × snapTrait` otherwise; only in the
remaining (old-format) case does it fall back to
`currentTitleAdditiveAfterTrait − snapshotIncludedTitleAdditive`. -/
theorem claim_c2_amended : ∀ (c : Character) (st : Stat),
    (calculateStatWithBreakdown st c).netTitleAdditive =
      spec_netTitleAdditive (calculateStatWithBreakdown st c).titleAdditive
        (calculateStatWithBreakdown st c).traitMultiplier
        (calculateStatWithBreakdown st c).snapshotRawTitleAdditive
        (calculateStatWithBreakdown st c).snapshotTraitMultiplier
        (calculateStatWithBreakdown st c).snapshotIncludedTitleAdditive :=
  fun _ _ => rfl

/-- C3 (code bug).  Capturing a snapshot at the current level and
immediately re-resolving does not reproduce the stats: with 9 manual free
points on strength at level 5, strength resolves to 9 before the capture
and to 18 right after it, because handleTakeSnapshot bakes the manual free
points into the snapshot stats without clearing or ledgering them. -/
theorem claim_c3_roundtrip_fails :
    (calculateAllStats charC3).stats Stat.strength = 9 ∧
    (calculateAllStats (takeSnapshot charC3)).stats Stat.strength = 18 := by
  constructor <;> norm_num [charC3, emptyCharacter]

/-- C4 (counterexample).  Raising the enabled strength title additive from
10 to 11 lowers the resolved strength from 100 to 61: the snapshot ledger
recorded the raw additive 10 under a ×5 trait multiplier that has since
disappeared, so the equal-raw shortcut (net 0) is replaced by
`11 × 1 − 10 × 5 = −39`. -/
theorem claim_c4_counterexample :
    (calculateStatWithBreakdown Stat.strength charC4bumped).final <
      (calculateStatWithBreakdown Stat.strength charC4).final := by
  norm_num [charC4, charC4bumped, snapC4, emptyCharacter]

/-- C4 (witness).  The amended monotonicity applied to a concrete boost
entry raise and a concrete title entry raise. -/
theorem claim_c4_witness :
    (calculateStatWithBreakdown Stat.strength charC4w).final ≤
      (calculateStatWithBreakdown Stat.strength
        { charC4w with statBoosts := setBoostAdditiveAt charC4w.statBoosts 0 2 }).final ∧
    (calculateStatWithBreakdown Stat.strength charC4w).final ≤
      (calculateStatWithBreakdown Stat.strength
        { charC4w with titles := setTitleAdditiveAt charC4w.titles 0 0 2 }).final := by
  constructor
  · apply claim_c4_amended.1 charC4w Stat.strength 0 2
    intro b hb
    norm_num [charC4w, emptyCharacter] at hb
    subst hb
    norm_num
  · apply claim_c4_amended.2 charC4w Stat.strength 0 0 2
    · intro t ht b hb
      norm_num [charC4w, emptyCharacter] at ht
      subst ht
      norm_num at hb
      subst hb
      norm_num
    · norm_num [charC4w, emptyCharacter]
    · norm_num [charC4w, emptyCharacter]

/-- Projection of the redirect pair: its target is the first redirect
effect found across the traits. -/
theorem bdRedirected_fst (c : Character) :
    (bdRedirected c).1 = findRedirectTarget c.traits := by
  unfold bdRedirected getRedirectedFreePoints
  cases findRedirectTarget c.traits <;> rfl

/-- Projection of the redirect pair: with a redirect present, the points
are 3 per level-up since the snapshot level (or 1). -/
theorem bdRedirected_snd (c : Character) (tgt : Stat)
    (h : findRedirectTarget c.traits = some tgt) :
    (bdRedirected c).2 = 3 * max 0 (c.level - snapFromLevel c) := by
  unfold bdRedirected getRedirectedFreePoints
  rw [h]

/-- C5 (amended).  When any trait carries a redirect effect, only the first
matching effect applies; every stat other than the target gets neither
redirected points nor manual free points, while the target receives 3
points per level-up since the snapshot level (or 1) plus its own stored
manual free points, which are not ignored for the target stat.  The
concrete redirect-exclusivity example resolves as the specification says. -/
theorem claim_c5_amended :
    (∀ (c : Character) (st tgt : Stat), findRedirectTarget c.traits = some tgt →
      st ≠ tgt →
      (calculateStatWithBreakdown st c).freePoints = 0 ∧
      (calculateStatWithBreakdown st c).redirectedFreePoints = 0) ∧
    (∀ (c : Character) (tgt : Stat), findRedirectTarget c.traits = some tgt →
      (calculateStatWithBreakdown tgt c).redirectedFreePoints =
        ((3 * max 0 (c.level - snapFromLevel c) : ℤ) : ℚ) ∧
      (calculateStatWithBreakdown tgt c).freePoints = c.freePoints tgt) ∧
    ((calculateStatWithBreakdown Stat.mana charC5).redirectedFreePoints = 9 ∧
      (calculateStatWithBreakdown Stat.strength charC5).freePoints = 0) := by
  refine ⟨?_, ?_, ?_⟩
  · intro c st tgt h hne
    constructor
    · show bdFreePoints c st = 0
      unfold bdFreePoints
      rw [bdRedirected_fst, h]
      rw [if_neg]
      rintro (h1 | h2)
      · exact Option.noConfusion h1
      · exact hne (Option.some_injective Stat h2).symm
    · show bdRedirectedFreePoints c st = 0
      unfold bdRedirectedFreePoints
      rw [bdRedirected_fst, h]
      rw [if_neg]
      intro h2
      exact hne (Option.some_injective Stat h2).symm
  · intro c tgt h
    constructor
    · show bdRedirectedFreePoints c tgt = _
      unfold bdRedirectedFreePoints
      rw [bdRedirected_fst, h, if_pos rfl, bdRedirected_snd c tgt h]
    · show bdFreePoints c tgt = c.freePoints tgt
      unfold bdFreePoints
      rw [bdRedirected_fst, h, if_pos (Or.inr rfl)]
  · constructor <;> (norm_num [charC5, emptyCharacter]; try decide)

/-- C5 (counterexample).  With the redirect to mana active and 5 manual
free points stored on mana, the composer still adds those manual points to
mana (freePoints 5, final 14 = 9 redirected + 5 manual), contradicting the
claim that the freePoints map is ignored for every stat. -/
theorem claim_c5_counterexample :
    (calculateStatWithBreakdown Stat.mana charC5cex).freePoints = 5 ∧
    (calculateStatWithBreakdown Stat.mana charC5cex).final = 14 := by
  constructor <;> (norm_num [charC5cex, emptyCharacter]; try decide)

/-- C5 (witness).  The amended statement applied at the concrete
redirect-exclusivity character. -/
theorem claim_c5_witness :
    ((calculateStatWithBreakdown Stat.strength charC5).freePoints = 0 ∧
      (calculateStatWithBreakdown Stat.strength charC5).redirectedFreePoints = 0) ∧
    (calculateStatWithBreakdown Stat.mana charC5).freePoints =
      charC5.freePoints Stat.mana := by
  constructor
  · apply claim_c5_amended.1 charC5 Stat.strength Stat.mana
    · norm_num [charC5, emptyCharacter]
    · intro h
      exact Stat.noConfusion h
  · exact (claim_c5_amended.2.1 charC5 Stat.mana
      (by norm_num [charC5, emptyCharacter])).2

/-- C6.  The final value of every stat equals the specification formula:
round the pre-multiplier value scaled by `1 + netTitleRate + netBoostRate`
when that combined net rate is positive (otherwise unscaled), where the net
title rate is first multiplied by the trait multiplier exactly when the
level is at least 30, the trait multiplier exceeds 1 and the net title rate
is positive — and the trait multiplier is never applied to the boost rate. -/
theorem claim_c6_final_composition : ∀ (c : Character) (st : Stat),
    (calculateStatWithBreakdown st c).final =
      spec_finalValue (calculateStatWithBreakdown st c).preFinalValue
        ((calculateStatWithBreakdown st c).titleMultiplier -
          (calculateStatWithBreakdown st c).snapshotIncludedTitleMultiplier)
        ((calculateStatWithBreakdown st c).statBoostMultiplier -
          (calculateStatWithBreakdown st c).snapshotIncludedBoostMultiplier)
        (calculateStatWithBreakdown st c).traitMultiplier c.level :=
  fun _ _ => rfl

/-- One trait-sourced derivation step changes the stats map exactly as the
specification formula does. -/
theorem derivStepTrait_stats (snap : Option Snapshot) (acc : AllStats)
    (d : StatDerivation) :
    (derivStepTrait snap acc d).stats = spec_applyDerivation snap acc.stats d := by
  simp only [derivStepTrait, spec_applyDerivation]
  split_ifs with h
  · ring_nf
  · rw [not_not] at h
    have hval : acc.stats d.targetStat +
        ((⌊acc.stats d.sourceStat * (d.percent / 100)⌋ : ℤ) : ℚ) -
        getSnapshotIncludedDerivation snap d.targetStat =
        acc.stats d.targetStat := by linarith
    rw [hval, Function.update_eq_self]

/-- One character-level derivation step changes the stats map exactly as
the specification formula does. -/
theorem derivStepChar_stats (snap : Option Snapshot) (acc : AllStats)
    (d : StatDerivation) :
    (derivStepChar snap acc d).stats = spec_applyDerivation snap acc.stats d := by
  simp only [derivStepChar, spec_applyDerivation]
  split_ifs with h
  · ring_nf
  · rw [not_not] at h
    have hval : acc.stats d.targetStat +
        ((⌊acc.stats d.sourceStat * (d.percent / 100)⌋ : ℤ) : ℚ) -
        getSnapshotIncludedDerivation snap d.targetStat =
        acc.stats d.targetStat := by linarith
    rw [hval, Function.update_eq_self]

/-- Folding trait-sourced derivation steps tracks the specification fold on
the stats component. -/
theorem foldl_derivStepTrait_stats (snap : Option Snapshot) :
    ∀ (l : List StatDerivation) (acc : AllStats),
      (l.foldl (derivStepTrait snap) acc).stats =
        l.foldl (spec_applyDerivation snap) acc.stats
  | [], _ => rfl
  | d :: l, acc => by
    rw [List.foldl_cons, List.foldl_cons, foldl_derivStepTrait_stats snap l _,
      derivStepTrait_stats]

/-- Folding character-level derivation steps tracks the specification fold
on the stats component. -/
theorem foldl_derivStepChar_stats (snap : Option Snapshot) :
    ∀ (l : List StatDerivation) (acc : AllStats),
      (l.foldl (derivStepChar snap) acc).stats =
        l.foldl (spec_applyDerivation snap) acc.stats
  | [], _ => rfl
  | d :: l, acc => by
    rw [List.foldl_cons, List.foldl_cons, foldl_derivStepChar_stats snap l _,
      derivStepChar_stats]

/-- C7.  After the first pass, the trait-sourced rules followed by the
character-level rules are applied in order as one fold of the
specification step — each rule adds
`floor(resolved[source] × percent / 100) − includedDerivationBonus[target]`
to its target, rules accumulate on a shared target, and a later rule reads
the stats already updated by earlier rules.  The concrete derivation-net
example: source resolved to 100, a 25 percent rule and an included bonus
of 10 add exactly 15 to the target. -/
theorem claim_c7_derivation_pass :
    (∀ c : Character,
      (calculateAllStats c).stats =
        (getStatDerivations c.traits ++ c.statDerivations).foldl
          (spec_applyDerivation (snapshotOf c))
          (fun st => ((bdFinal c st : ℤ) : ℚ))) ∧
    ((calculateAllStats charC7).stats Stat.intellect = 15 ∧
      (calculateAllStats charC7).stats Stat.willpower = 100) := by
  constructor
  · intro c
    rw [List.foldl_append]
    show (c.statDerivations.foldl (derivStepChar (snapshotOf c))
        ((getStatDerivations c.traits).foldl (derivStepTrait (snapshotOf c))
          ⟨fun st => ((bdFinal c st : ℤ) : ℚ), fun _ => 0⟩)).stats = _
    rw [foldl_derivStepChar_stats, foldl_derivStepTrait_stats]
  · constructor <;>
      norm_num +decide [charC7, snapC7, emptyCharacter, List.filterMap_cons,
        Function.update]

/-- C8 (counterexample).  With constitution resolved to 5 and a stored
current HP of 0, the calculator returns current HP 50 (the falsy stored 0
collapses to the maximum), not `min(0, max) = 0` as the claim asserts. -/
theorem claim_c8_counterexample :
    (calculateDerivedStats statsC8 charC8 0).hpCurrent ≠
      min 0 ((calculateDerivedStats statsC8 charC8 0).hpMax) := by
  norm_num [statsC8, charC8, emptyCharacter]

/-- C8 (amended).  Maximum HP is constitution × 10 and maximum MP is
(mana + borrowedMana) × 10; a stored nonzero current value is clamped to
`min(stored, max)`, while an absent or zero stored value defaults to the
maximum (the source uses a falsy check, so a stored 0 behaves like an
absent value). -/
theorem claim_c8_amended : ∀ (fs : Stat → ℚ) (c : Character) (bm : ℚ),
    (calculateDerivedStats fs c bm).hpMax = fs Stat.constitution * 10 ∧
    (calculateDerivedStats fs c bm).mpMax = (fs Stat.mana + bm) * 10 ∧
    (∀ v : ℚ, c.hpCurrent = some v → v ≠ 0 →
      (calculateDerivedStats fs c bm).hpCurrent =
        min v ((calculateDerivedStats fs c bm).hpMax)) ∧
    ((c.hpCurrent = none ∨ c.hpCurrent = some 0) →
      (calculateDerivedStats fs c bm).hpCurrent =
        (calculateDerivedStats fs c bm).hpMax) ∧
    (∀ v : ℚ, c.mpCurrent = some v → v ≠ 0 →
      (calculateDerivedStats fs c bm).mpCurrent =
        min v ((calculateDerivedStats fs c bm).mpMax)) ∧
    ((c.mpCurrent = none ∨ c.mpCurrent = some 0) →
      (calculateDerivedStats fs c bm).mpCurrent =
        (calculateDerivedStats fs c bm).mpMax) := by
  intro fs c bm
  refine ⟨rfl, rfl, ?_, ?_, ?_, ?_⟩
  · intro v hv hv0
    simp only [calculateDerivedStats, hv]
    rw [if_neg hv0]
  · rintro (hv | hv) <;> simp [calculateDerivedStats, hv]
  · intro v hv hv0
    simp only [calculateDerivedStats, hv]
    rw [if_neg hv0]
  · rintro (hv | hv) <;> simp [calculateDerivedStats, hv]

/-- C8 (witness).  The amended clamping applied at a stored current HP of
30 and an absent stored current MP. -/
theorem claim_c8_witness :
    (calculateDerivedStats statsC8 charC8w 0).hpCurrent =
      min 30 ((calculateDerivedStats statsC8 charC8w 0).hpMax) ∧
    (calculateDerivedStats statsC8 charC8w 0).mpCurrent =
      (calculateDerivedStats statsC8 charC8w 0).mpMax := by
  constructor
  · exact (claim_c8_amended statsC8 charC8w 0).2.2.1 30 rfl (by norm_num)
  · exact (claim_c8_amended statsC8 charC8w 0).2.2.2.2.2 (Or.inl rfl)

/-- C9.  Bond synchronisation is read-only for the receiving character:
the resolved stats and the derived HP of the main character do not depend
on the bonded partner at all, and the borrowed mana computed from the
partner enters only the derived MP maximum,
`mpMax = (resolved mana + borrowed) × 10`. -/
theorem claim_c9_bond_readonly : ∀ (hb : Bool) (main b b' : Character),
    (mainPipeline hb main b).stats = (mainPipeline hb main b').stats ∧
    (mainPipeline hb main b).derived.hpCurrent =
      (mainPipeline hb main b').derived.hpCurrent ∧
    (mainPipeline hb main b).derived.hpMax =
      (mainPipeline hb main b').derived.hpMax ∧
    (mainPipeline hb main b).derived.mpMax =
      ((mainPipeline hb main b).stats Stat.mana +
        syncedManaForMain hb ((calculateAllStats b).stats)) * 10 := by
  intro hb main b b2
  refine ⟨rfl, ?_, ?_, ?_⟩
  · rw [mainPipeline_derived, mainPipeline_derived, calcDerived_hpCurrent,
      calcDerived_hpCurrent]
  · rw [mainPipeline_derived, mainPipeline_derived, calcDerived_hpMax,
      calcDerived_hpMax]
  · rw [mainPipeline_derived, mainPipeline_stats, calcDerived_mpMax]
